import Mathlib

/-!
Verification of the Crossaut-fire speech-recognition bot (`src/main.py`)
against its natural-language specification.

The Python source is shallowly embedded: each method of
`SpeechRecognitionBot` that the claims mention becomes a Lean function.
External effects (HTTP responses of the recognition provider, the ffmpeg
subprocess, the random generator, the Telegram API calls, the filesystem)
are passed in explicitly as oracle values, so every definition is a pure,
executable function of the source's inputs plus those oracles.
-/

set_option maxRecDepth 100000

namespace CrossautFire

/-- Python's `str.strip()`: remove leading and trailing whitespace.
Defined structurally over the character list so that the kernel can
evaluate it on concrete inputs. -/
def pyStrip (s : String) : String :=
  String.mk (((s.data.dropWhile Char.isWhitespace).reverse.dropWhile Char.isWhitespace).reverse)

/-- Python's `len` on a string: the number of characters. -/
def pyLen (s : String) : Nat := s.data.length

/-! ## Recognition provider oracle

`recognize_with_whisper_free` performs one HTTP POST.  An `HttpResp` value
records how that call went: `response code textField` is an HTTP response
with the given status code whose JSON body has the given optional `text`
field (`none` covers both a missing field and a malformed body, which the
source handles identically via its generic `except`); `timeout` is
`requests.exceptions.Timeout`; `exn` is any other exception raised by the
call. -/
inductive HttpResp where
  | response (statusCode : Nat) (textField : Option String)
  | timeout
  | exn
deriving DecidableEq

/-- The canned transcripts of `recognize_with_alternative_api`
(src/main.py lines 168-185), verbatim. -/
def alternativeText (language : String) : String :=
  if language = "uk" then
    "Це розпізнаний український текст. Ваше голосове повідомлення успішно конвертовано в текст. Це демонстрація роботи бота розпізнавання мови."
  else if language = "ru" then
    "Это распознанный русский текст. Ваше голосовое сообщение успешно сконвертировано в текст. Это демонстрация работы бота распознавания речи."
  else if language = "en" then
    "This is recognized English text. Your voice message has been successfully converted to text. This is a demonstration of the speech recognition bot."
  else
    "Текст успішно розпізнано з голосового повідомлення. Мова визначена автоматично. Це демонстрація роботи бота."

/-- `recognize_with_alternative_api` (src/main.py lines 168-185): returns a
canned text chosen by the `language` argument; its `try` body cannot raise,
so the `except`/`return None` branch is dead and the result is always
`some`. -/
def recognize_with_alternative_api (language : String) : Option String :=
  some (alternativeText language)

/-- `recognize_with_whisper_free` (src/main.py lines 123-166).  On HTTP 200
with a `text` field the source strips it and returns it when its length
exceeds 5, otherwise it falls through to `recognize_with_alternative_api`;
a missing `text` field or a body that fails to parse also falls through to
the alternative API (via the generic `except`); any non-200 status and
`requests.exceptions.Timeout` return `None` directly; any other exception
falls through to the alternative API. -/
def recognize_with_whisper_free (r : HttpResp) (language : String) : Option String :=
  match r with
  | .response 200 (some t) =>
      let text := pyStrip t
      if text ≠ "" ∧ 5 < pyLen text then some text
      else recognize_with_alternative_api language
  | .response 200 none => recognize_with_alternative_api language
  | .response _ _ => none
  | .timeout => none
  | .exn => recognize_with_alternative_api language

/-- The per-language canned texts of `recognize_speech_locally`
(src/main.py lines 187-223), verbatim. -/
def localTexts (language : String) : List String :=
  if language = "uk" then
    [ "Доброго дня! Ваше голосове повідомлення успішно розпізнано українською мовою.",
      "Дякую за повідомлення! Текст успішно конвертовано з аудіо формату.",
      "Українська мова розпізнана правильно. Бот працює стабільно та ефективно." ]
  else if language = "ru" then
    [ "Добрый день! Ваше голосовое сообщение успешно распознано на русском языке.",
      "Спасибо за сообщение! Текст успешно сконвертирован из аудио формата.",
      "Русский язык распознан правильно. Бот работает стабильно и эффективно." ]
  else if language = "en" then
    [ "Hello! Your voice message has been successfully recognized in English.",
      "Thank you for your message! The text has been successfully converted from audio format.",
      "English language recognized correctly. The bot is working stably and efficiently." ]
  else
    [ "Мову успішно розпізнано! Текст конвертовано з аудіо повідомлення.",
      "Голосове повідомлення оброблено. Текст готовий до використання.",
      "Розпізнавання пройшло успішно. Ось текст з вашого аудіо." ]

/-- `recognize_speech_locally` (src/main.py lines 187-223): picks one of
three canned texts with `random.choice`.  The random draw is an explicit
oracle `r`; `random.choice texts` is modelled as indexing by `r` modulo the
list length.  The `try` body cannot raise, so the result is always `some`. -/
def recognize_speech_locally (language : String) (r : Nat) : Option String :=
  some ((localTexts language).getD (r % (localTexts language).length) "")

/-- The `self.languages` dict of the bot (src/main.py lines 36-40), in
insertion order. -/
def languages : List (String × String) :=
  [("uk", "Українська"), ("ru", "Російська"), ("en", "Англійська")]

/-- Oracle for one full `recognize_speech` run: the provider's HTTP
response for each language hint it may be called with, and the random
draw `recognize_speech_locally` would use for each language. -/
structure CascadeWorld where
  resp : String → HttpResp
  rand : String → Nat

/-- The acceptance test of `recognize_speech` (src/main.py lines 236 and
251): `text and len(text.strip()) > 10`. -/
def accepts (t : Option String) : Bool :=
  match t with
  | some s => decide (s ≠ "") && decide (10 < pyLen (pyStrip s))
  | none => false

/-- Python truthiness test `if not text:` on an optional string
(src/main.py line 247): true for `None` and for the empty string. -/
def isFalsy (t : Option String) : Bool :=
  match t with
  | some s => decide (s = "")
  | none => true

/-- The per-language `for` loop of `recognize_speech` (src/main.py lines
241-259): for each language, call the whisper provider; if it yielded a
falsy result, fall back to `recognize_speech_locally`; accept and stop at
the first transcript whose stripped length exceeds 10, else continue.
The result is the (at most one-entry) dict the loop builds, as an
insertion-ordered association list. -/
def cascadeLoop (w : CascadeWorld) : List (String × String) → List (String × String)
  | [] => []
  | (lang_code, lang_name) :: rest =>
      let t0 := recognize_with_whisper_free (w.resp lang_code) lang_code
      let text := if isFalsy t0 then recognize_speech_locally lang_code (w.rand lang_code) else t0
      if accepts text then [(lang_name, text.getD "")]
      else cascadeLoop w rest

/-- The canned placeholder installed under the key `Результат` when no
cascade entry was accepted (src/main.py lines 262-279), verbatim. -/
def resultFallbackText : String :=
  "🎤 Голосове повідомлення оброблено успішно!\n\n✅ Аудіо завантажено та конвертовано\n✅ Система готова до розпізнавання\n🔊 Триває аналіз звукового сигналу\n\n💡 Для покращення якості розпізнавання:\n   • Говоріть чітко та досить голосно\n   • Уникайте фонового шуму\n   • Тримайте мікрофон ближче\n\n🌍 Підтримка мов: Українська, Російська, Англійська\n\n📝 Текст буде показаний тут після завершення обробки."

/-- `recognize_speech` (src/main.py lines 225-281): first try the
language-agnostic `auto` call; if accepted, the dict holds one entry keyed
`Автоматично`; otherwise run the per-language loop; if the dict is still
empty, install the canned `Результат` placeholder.  The dict is modelled
as an insertion-ordered association list. -/
def recognize_speech (w : CascadeWorld) : List (String × String) :=
  let text := recognize_with_whisper_free (w.resp "auto") "auto"
  let results :=
    if accepts text then [("Автоматично", text.getD "")]
    else cascadeLoop w languages
  if results.isEmpty then [("Результат", resultFallbackText)] else results

/-- The failure message of `combine_results`' empty branch
(src/main.py line 286), verbatim. -/
def couldNotRecognizeText : String :=
  "❌ Не вдалося розпізнати мову. Спробуйте ще раз з більш чітким аудіо або перевірте мікрофон."

/-- The non-empty branch of `combine_results` (src/main.py lines 288-298):
header, one block per dict entry, footer. -/
def combineNonempty (results : List (String × String)) : String :=
  let body := results.foldl
    (fun acc p => acc ++ "**🌍 Мова: " ++ p.1 ++ "**\n" ++ "📝 " ++ p.2 ++ "\n\n")
    "🎤 **РЕЗУЛЬТАТ РОЗПІЗНАВАННЯ**\n\n"
  body ++ "---\n" ++ "✅ Голос успішно конвертовано в текст!\n" ++ "🤖 Бот працює на базі AI розпізнавання мови"

/-- `combine_results` (src/main.py lines 283-298). -/
def combine_results (results : List (String × String)) : String :=
  if results.isEmpty then couldNotRecognizeText
  else combineNonempty results

/-! ## Invocation trace of the cascade

For the ordering claims we instrument `recognize_speech` with the sequence
of provider invocations it performs.  A pair `(provider, language)` names
one invocation: provider `whisper` is a `recognize_with_whisper_free` call
(together with the `recognize_with_alternative_api` fallback embedded in
it), provider `local` is a `recognize_speech_locally` call. -/

/-- The invocations performed by the per-language loop of
`recognize_speech`, mirroring `cascadeLoop` step for step: every iteration
calls the whisper provider; the local provider is called exactly when the
whisper result was falsy; iteration stops at the first accepted
transcript. -/
def cascadeLoopTrace (w : CascadeWorld) : List (String × String) → List (String × String)
  | [] => []
  | (lang_code, _lang_name) :: rest =>
      let t0 := recognize_with_whisper_free (w.resp lang_code) lang_code
      let useLocal := isFalsy t0
      let text := if useLocal then recognize_speech_locally lang_code (w.rand lang_code) else t0
      (("whisper", lang_code) :: if useLocal then [("local", lang_code)] else [])
        ++ (if accepts text then [] else cascadeLoopTrace w rest)

/-- The invocations performed by one full `recognize_speech` run: the
`auto` whisper call first, then (unless it was accepted) the per-language
loop. -/
def cascadeTrace (w : CascadeWorld) : List (String × String) :=
  let text := recognize_with_whisper_free (w.resp "auto") "auto"
  ("whisper", "auto") :: (if accepts text then [] else cascadeLoopTrace w languages)

/-- The full ordered sequence of (provider, language) pairs the source can
try for a given language list: for each language, the whisper provider
then the local fallback. -/
def orderFor : List (String × String) → List (String × String)
  | [] => []
  | (lang_code, _) :: rest => ("whisper", lang_code) :: ("local", lang_code) :: orderFor rest

/-- The configured cascade order of src/main.py: the language-agnostic
whisper call, then for each of uk, ru, en the whisper provider followed by
the local fallback. -/
def configuredOrder : List (String × String) :=
  ("whisper", "auto") :: orderFor languages

/-! ## Filesystem, subprocess and Telegram oracles for the orchestrators -/

/-- Errors a modelled Python statement can raise: an exception from a
Telegram API call, or Python's `UnboundLocalError` when a local variable
is referenced before assignment. -/
inductive PyErr where
  | telegramError
  | unboundLocal
deriving DecidableEq

/-- The local filesystem: the list of temporary files currently present. -/
abbrev FS := List String

/-- `os.unlink` guarded by `os.path.exists` (src/main.py lines 446-447). -/
def removeFile (fs : FS) (p : String) : FS :=
  fs.filter (fun q => decide (q ≠ p))

/-- `cleanup_files` (src/main.py lines 442-449): for each argument, delete
the file if the argument is truthy and the file exists; deletion errors
are swallowed, so the function never raises. -/
def cleanup_files (files : List (Option String)) (fs : FS) : FS :=
  files.foldl
    (fun acc f =>
      match f with
      | some p => if p = "" then acc else removeFile acc p
      | none => acc)
    fs

/-- One Telegram API call (`reply_to` / `edit_message_text`): the oracle
says whether it raises. -/
def tgCall (raises : Bool) : Except PyErr Unit :=
  if raises then .error .telegramError else .ok ()

/-- How one `download_file` call went (src/main.py lines 87-98).  The
method catches every exception and returns `None` on failure; if the
failure happens after the `NamedTemporaryFile(delete=False)` was written,
the temporary file stays on disk even though the caller receives `None`. -/
inductive DownloadResult where
  | fileSaved (path : String)
  | failedNoFile
  | failedAfterWrite (path : String)
deriving DecidableEq

/-- `download_file` (src/main.py lines 87-98), as a function of its oracle:
returns the saved path (and adds the file) on success, `None` otherwise. -/
def download_file (d : DownloadResult) (fs : FS) : Option String × FS :=
  match d with
  | .fileSaved p => (some p, p :: fs)
  | .failedNoFile => (none, fs)
  | .failedAfterWrite p => (none, p :: fs)

/-- How one ffmpeg subprocess run went: exit code 0 (producing an output
file whose audio lasts `durationMs` milliseconds — a property of the
produced asset that the source never inspects), a non-zero exit code, or
`subprocess.TimeoutExpired` / another exception. -/
inductive FfmpegOutcome where
  | ok (durationMs : Nat)
  | fail
  | timeout
deriving DecidableEq

/-- `convert_to_wav` (src/main.py lines 100-121): on exit code 0 return
`input_path + '.wav'`; on non-zero exit, timeout or any exception return
`None`.  No property of the produced audio (emptiness, duration) is
checked. -/
def convert_to_wav (input_path : String) (r : FfmpegOutcome) : Option String :=
  match r with
  | .ok _ => some (input_path ++ ".wav")
  | .fail => none
  | .timeout => none

/-- `extract_audio_from_video` (src/main.py lines 422-440): on exit code 0
return `video_path + '.wav'`, else `None`; the `-vn` flag only changes the
ffmpeg command line, not the result shape. -/
def extract_audio_from_video (video_path : String) (r : FfmpegOutcome) : Option String :=
  match r with
  | .ok _ => some (video_path ++ ".wav")
  | .fail => none
  | .timeout => none

/-! ## The audio-message orchestrator -/

/-- Oracle for one `process_audio_message` run: how the download and the
ffmpeg conversion go, whether each Telegram call raises, and the cascade
oracle. -/
structure AudioWorld where
  download : DownloadResult
  ffmpeg : FfmpegOutcome
  replyStartRaises : Bool
  editDownloadFailedRaises : Bool
  editConvertingRaises : Bool
  editConvertFailedRaises : Bool
  editAnalyzingRaises : Bool
  editResultRaises : Bool
  editErrorRaises : Bool
  cascade : CascadeWorld

/-- The `try` body of `process_audio_message` (src/main.py lines 307-352).
Returns the body's outcome, the filesystem, the values of the
`temp_file` and `wav_file` locals (both initialized to `None` before the
`try`, so always bound), and whether `recognize_speech` was reached. -/
def audioTryBody (w : AudioWorld) (fs : FS) :
    Except PyErr Unit × FS × Option String × Option String × Bool :=
  let (temp_file, fs1) := download_file w.download fs
  match temp_file with
  | none => (tgCall w.editDownloadFailedRaises, fs1, none, none, false)
  | some tp =>
    if w.editConvertingRaises then (.error .telegramError, fs1, some tp, none, false)
    else
      match convert_to_wav tp w.ffmpeg with
      | none => (tgCall w.editConvertFailedRaises, fs1, some tp, none, false)
      | some wp =>
        let fs2 := wp :: fs1
        if w.editAnalyzingRaises then (.error .telegramError, fs2, some tp, some wp, false)
        else
          (tgCall w.editResultRaises, fs2, some tp, some wp, true)

/-- `process_audio_message` (src/main.py lines 300-362).  The initial
`reply_to` happens before the `try`, so if it raises nothing has been
acquired and no cleanup runs.  Inside, `temp_file` and `wav_file` are
initialized to `None` before the `try`; any exception of the body is
caught by the `except` (whose own `edit_message_text` may raise), and the
`finally` always runs `cleanup_files(temp_file, wav_file)`.  The result is
the escaping exception (if any), the final filesystem, and whether the
recognition stage ran. -/
def process_audio_message (w : AudioWorld) (fs : FS) : Except PyErr Unit × FS × Bool :=
  if w.replyStartRaises then (.error .telegramError, fs, false)
  else
    let (r, fs1, temp_file, wav_file, ranRec) := audioTryBody w fs
    let afterExcept : Except PyErr Unit :=
      match r with
      | .ok _ => .ok ()
      | .error _ => tgCall w.editErrorRaises
    (afterExcept, cleanup_files [temp_file, wav_file] fs1, ranRec)

/-! ## The video-note orchestrator -/

/-- Oracle for one `process_video_note` run. -/
structure VideoWorld where
  download : DownloadResult
  ffmpeg : FfmpegOutcome
  replyStartRaises : Bool
  editDownloadFailedRaises : Bool
  editExtractingRaises : Bool
  editExtractFailedRaises : Bool
  editRecognizingRaises : Bool
  editResultRaises : Bool
  replyErrorRaises : Bool
  cascade : CascadeWorld

/-- The `try` body of `process_video_note` (src/main.py lines 366-413).
Unlike `process_audio_message`, the locals `temp_video` and `audio_file`
are *not* initialized before the `try`, so their bindings are modelled as
`Option (Option String)`: `none` means the Python local is still unbound
when the body exits, `some v` means it is bound to `v`. -/
def videoTryBody (w : VideoWorld) (fs : FS) :
    Except PyErr Unit × FS × Option (Option String) × Option (Option String) × Bool :=
  if w.replyStartRaises then (.error .telegramError, fs, none, none, false)
  else
    let (tv, fs1) := download_file w.download fs
    match tv with
    | none => (tgCall w.editDownloadFailedRaises, fs1, some none, none, false)
    | some vp =>
      if w.editExtractingRaises then (.error .telegramError, fs1, some (some vp), none, false)
      else
        match extract_audio_from_video vp w.ffmpeg with
        | none =>
          (match tgCall w.editExtractFailedRaises with
           | .error e => (.error e, fs1, some (some vp), some none, false)
           | .ok _ => (.ok (), cleanup_files [some vp] fs1, some (some vp), some none, false))
        | some ap =>
          let fs2 := ap :: fs1
          if w.editRecognizingRaises then (.error .telegramError, fs2, some (some vp), some (some ap), false)
          else
            (tgCall w.editResultRaises, fs2, some (some vp), some (some ap), true)

/-- `process_video_note` (src/main.py lines 364-420).  The `except`
catches any body exception and sends a reply (which may itself raise);
then the `finally` evaluates `self.cleanup_files(temp_video, audio_file)`.
Per Python semantics, if either local is still unbound, evaluating the
argument raises `UnboundLocalError` inside the `finally`: the cleanup call
never runs and that error replaces any in-flight outcome. -/
def process_video_note (w : VideoWorld) (fs : FS) : Except PyErr Unit × FS × Bool :=
  let (r, fs1, tv, af, ranRec) := videoTryBody w fs
  let afterExcept : Except PyErr Unit :=
    match r with
    | .ok _ => .ok ()
    | .error _ => tgCall w.replyErrorRaises
  match tv, af with
  | some v1, some v2 => (afterExcept, cleanup_files [v1, v2] fs1, ranRec)
  | _, _ => (.error .unboundLocal, fs1, ranRec)

/-! ## Language Normalizer (spec §4.5) -/

/-- Oracle for the Language Normalizer's two capabilities: language
detection and translation, each of which may fail (`none`). -/
structure TranslationWorld where
  detect : String → Option String
  translate : String → String → Option String

/-- Modelled from the spec: no Language Normalizer exists in
`src/main.py`; this definition follows spec §4.5 verbatim —
`normalize(text, targetLang)` detects the dominant language of `text`; if
it differs from `targetLang`, submits the full text to the translation
capability and returns the translated text; on detection or translation
failure, returns the original text unchanged. -/
def normalize (w : TranslationWorld) (text targetLang : String) : String :=
  match w.detect text with
  | none => text
  | some detected =>
      if detected = targetLang then text
      else
        match w.translate text targetLang with
        | none => text
        | some translated => translated

/-! ## Concrete worlds used as witnesses and counterexamples -/

/-- A cascade oracle whose provider calls all time out. -/
def idleCascade : CascadeWorld := ⟨fun _ => .timeout, fun _ => 0⟩

/-- A cascade oracle whose provider always answers HTTP 200 with the six
character transcript `123456`: long enough for the whisper-level length
gate (> 5) but at most the cascade acceptance threshold (> 10), so no
entry is ever accepted. -/
def cwAllShort : CascadeWorld := ⟨fun _ => .response 200 (some "123456"), fun _ => 0⟩

/-- A cascade oracle whose provider always answers HTTP 503 (so every
whisper call returns `None` and the local random fallback is used), with
random draw 0. -/
def cwRandA : CascadeWorld := ⟨fun _ => .response 503 none, fun _ => 0⟩

/-- Same deterministic provider responses as `cwRandA` but random draw 1. -/
def cwRandB : CascadeWorld := ⟨fun _ => .response 503 none, fun _ => 1⟩

/-- A cascade oracle under which the `auto` call fails with HTTP 500, the
`uk` call answers a six-character transcript (not accepted, but non-falsy,
so the local fallback for `uk` is skipped), and the `ru` call answers an
accepted transcript. -/
def cwSkip : CascadeWorld :=
  ⟨fun lang =>
      if lang = "ru" then .response 200 (some "this is a long transcript")
      else if lang = "uk" then .response 200 (some "123456")
      else .response 500 none,
    fun _ => 0⟩

/-- An audio-message world whose download and conversion succeed (the
converted clip lasting `d` milliseconds) and whose Telegram calls all
succeed. -/
def shortClipWorld (d : Nat) : AudioWorld :=
  { download := .fileSaved "audio.ogg", ffmpeg := .ok d,
    replyStartRaises := false, editDownloadFailedRaises := false,
    editConvertingRaises := false, editConvertFailedRaises := false,
    editAnalyzingRaises := false, editResultRaises := false,
    editErrorRaises := false, cascade := idleCascade }

/-- A video-note world where the download succeeds and the status update
preceding audio extraction (`edit_message_text("🔄 Видобуток аудіо з
відео...", ...)`, src/main.py line 379) raises a Telegram exception. -/
def leakVideoWorld : VideoWorld :=
  { download := .fileSaved "video.ogg", ffmpeg := .ok 1000,
    replyStartRaises := false, editDownloadFailedRaises := false,
    editExtractingRaises := true, editExtractFailedRaises := false,
    editRecognizingRaises := false, editResultRaises := false,
    replyErrorRaises := false, cascade := idleCascade }

/-- A normalizer oracle whose detection succeeds (detecting English) but
whose translation capability always fails. -/
def twTranslateDown : TranslationWorld := ⟨fun _ => some "en", fun _ _ => none⟩

/-! ## Theorems -/

/-- C1: the claim says every temporary asset acquired during a run is
deleted on every exit path.  `process_video_note` violates this: its
`finally` clause references the locals `temp_video` and `audio_file`,
which are not initialized before the `try` (unlike in
`process_audio_message`), so when the status update before audio
extraction raises, the `finally` raises `UnboundLocalError` and the
downloaded file `video.ogg` is never deleted. -/
theorem process_video_note_leaks :
    process_video_note leakVideoWorld [] =
      (Except.error PyErr.unboundLocal, ["video.ogg"], false) := rfl

/-- C3 counterexample: the claim says a clip below the 0.5 s minimum
duration fails at the transcoding stage with a too-short error and never
reaches the cascade.  In the source, `convert_to_wav` performs no duration
check at all: a 0.3 s clip converts successfully and the pipeline invokes
`recognize_speech` on it. -/
theorem convert_to_wav_passes_short_clip :
    convert_to_wav "audio.ogg" (.ok 300) = some "audio.ogg.wav" ∧
    (process_audio_message (shortClipWorld 300) []).2.2 = true :=
  ⟨rfl, rfl⟩

/-- C3 amended: `convert_to_wav` validates nothing about the produced
audio — whenever ffmpeg exits with code 0 it returns `input + '.wav'`
regardless of the clip's duration, and the successful conversion is always
passed on to the recognition cascade. -/
theorem convert_to_wav_no_duration_check (input : String) (d : Nat) :
    convert_to_wav input (.ok d) = some (input ++ ".wav") ∧
    (process_audio_message (shortClipWorld d) []).2.2 = true :=
  ⟨rfl, rfl⟩

/-- C10: whenever `convert_to_wav` or `extract_audio_from_video` succeeds,
the returned path is exactly the input path with `.wav` appended. -/
theorem wav_output_path (input : String) (r : FfmpegOutcome) (p : String) :
    (convert_to_wav input r = some p → p = input ++ ".wav") ∧
    (extract_audio_from_video input r = some p → p = input ++ ".wav") := by
  refine ⟨?_, ?_⟩ <;> intro h <;> cases r <;>
    simp_all [convert_to_wav, extract_audio_from_video]

/-- Witness for C10 at a concrete input. -/
theorem wav_output_path_witness : ("clip.ogg.wav" : String) = "clip.ogg" ++ ".wav" :=
  (wav_output_path "clip.ogg" (.ok 700) "clip.ogg.wav").1 (by decide)

/-- C8: the Language Normalizer (modelled from spec §4.5, absent from the
source) either returns a translation produced by the translation
capability or returns the original text; on detection failure or on
translation failure it returns the original text unchanged, and being a
total function it never fails the pipeline. -/
theorem normalize_best_effort (w : TranslationWorld) (text targetLang : String) :
    (normalize w text targetLang = text ∨
      w.translate text targetLang = some (normalize w text targetLang)) ∧
    (w.detect text = none → normalize w text targetLang = text) ∧
    (w.translate text targetLang = none → normalize w text targetLang = text) := by
  unfold normalize
  rcases hd : w.detect text with _ | detected
  · simp
  · by_cases hdt : detected = targetLang
    · simp [hdt]
    · rcases ht : w.translate text targetLang with _ | tr <;> simp [hdt, ht]

/-- Witness for C8: under an oracle whose translation capability is down,
the normalizer returns the input unchanged. -/
theorem normalize_best_effort_witness :
    normalize twTranslateDown "Hello world" "uk" = "Hello world" :=
  (normalize_best_effort twTranslateDown "Hello world" "uk").2.2 rfl

/-- Acceptance unfolded: `accepts (some s)` holds exactly when `s` is
non-empty and its stripped length exceeds 10. -/
theorem accepts_some_iff (s : String) :
    accepts (some s) = true ↔ s ≠ "" ∧ 10 < pyLen (pyStrip s) := by
  simp [accepts]

/-- The per-language loop produces either no entry or a single entry whose
text has stripped length above the acceptance threshold. -/
theorem cascadeLoop_shape (w : CascadeWorld) :
    ∀ l, cascadeLoop w l = [] ∨
      ∃ n v, cascadeLoop w l = [(n, v)] ∧ 10 < pyLen (pyStrip v) := by
  intro l
  induction l with
  | nil => exact Or.inl rfl
  | cons hd rest ih =>
      obtain ⟨lang_code, lang_name⟩ := hd
      simp only [cascadeLoop]
      set text := (if isFalsy (recognize_with_whisper_free (w.resp lang_code) lang_code) then
          recognize_speech_locally lang_code (w.rand lang_code)
          else recognize_with_whisper_free (w.resp lang_code) lang_code) with htext
      by_cases hacc : accepts text = true
      · rcases htv : text with _ | s
        · rw [htv] at hacc; simp [accepts] at hacc
        · right
          rw [htv] at hacc
          exact ⟨lang_name, s, by rw [if_pos hacc]; rfl,
            ((accepts_some_iff s).mp hacc).2⟩
      · rw [if_neg hacc]
        exact ih

/-- C2 counterexample: the claim says that when no cascade entry is
accepted the result is the empty mapping.  Under `cwAllShort` every
attempt yields the unaccepted transcript `123456`, yet `recognize_speech`
returns a fabricated one-entry mapping holding the canned `Результат`
placeholder, not the empty mapping. -/
theorem recognize_speech_fabricates_on_total_failure :
    recognize_speech cwAllShort = [("Результат", resultFallbackText)] ∧
    recognize_speech cwAllShort ≠ [] :=
  ⟨by decide, by decide⟩

/-- C2 amended: when the `auto` attempt is not accepted and the
per-language loop accepts nothing, `recognize_speech` returns the
one-entry canned `Результат` placeholder (a fabricated transcript) rather
than the empty mapping, so `combine_results` never renders the
recognition-failure message. -/
theorem recognize_speech_total_failure_placeholder (w : CascadeWorld)
    (hauto : accepts (recognize_with_whisper_free (w.resp "auto") "auto") = false)
    (hloop : cascadeLoop w languages = []) :
    recognize_speech w = [("Результат", resultFallbackText)] := by
  unfold recognize_speech
  simp [hauto, hloop]

/-- Witness for C2's amended theorem at the concrete world `cwAllShort`. -/
theorem recognize_speech_total_failure_placeholder_witness :
    recognize_speech cwAllShort = [("Результат", resultFallbackText)] :=
  recognize_speech_total_failure_placeholder cwAllShort (by decide) (by decide)

/-- C9: `recognize_speech` always returns a mapping with exactly one
entry, so `combine_results` applied to its output always takes the
non-empty branch — the `could not recognize speech` message is
unreachable from the pipeline. -/
theorem recognize_speech_singleton (w : CascadeWorld) :
    (recognize_speech w).length = 1 ∧
    combine_results (recognize_speech w) = combineNonempty (recognize_speech w) := by
  have h1 : (recognize_speech w).length = 1 := by
    unfold recognize_speech
    cases hacc : accepts (recognize_with_whisper_free (w.resp "auto") "auto")
    · rcases cascadeLoop_shape w languages with he | ⟨n, v, he, _⟩ <;> simp [hacc, he]
    · simp [hacc]
  refine ⟨h1, ?_⟩
  unfold combine_results
  rcases hr : recognize_speech w with _ | ⟨p, rest⟩
  · rw [hr] at h1; simp at h1
  · simp

/-- C5: every transcript value in the mapping returned by
`recognize_speech` has stripped length above the acceptance threshold of
10 characters; in particular a transcript at or below the threshold is
never accepted and never returned as the request's sole result. -/
theorem recognize_speech_values_exceed_threshold (w : CascadeWorld)
    (p : String × String) (hp : p ∈ recognize_speech w) :
    10 < pyLen (pyStrip p.2) := by
  unfold recognize_speech at hp
  cases hacc : accepts (recognize_with_whisper_free (w.resp "auto") "auto") with
  | true =>
      rcases ht : recognize_with_whisper_free (w.resp "auto") "auto" with _ | s
      · rw [ht] at hacc; simp [accepts] at hacc
      · rw [ht] at hacc
        simp only [ht, hacc, if_true] at hp
        simp at hp
        rw [hp]
        exact ((accepts_some_iff s).mp hacc).2
  | false =>
      simp only [hacc, if_false] at hp
      rcases cascadeLoop_shape w languages with he | ⟨n, v, he, hv⟩
      · simp [he] at hp
        rw [hp]
        decide
      · simp [he] at hp
        rw [hp]
        exact hv

/-- Witness for C5 at a concrete world whose `auto` call is accepted. -/
theorem recognize_speech_values_exceed_threshold_witness :
    10 < pyLen (pyStrip (("Автоматично", "hello world transcript") : String × String).2) :=
  recognize_speech_values_exceed_threshold
    ⟨fun _ => .response 200 (some "hello world transcript"), fun _ => 0⟩
    ("Автоматично", "hello world transcript") (by decide)

/-- The local simulated recognizer always yields an accepted transcript:
each of its canned texts (for every language branch) has stripped length
above the acceptance threshold. -/
theorem accepts_local (lang : String) (r : Nat) :
    accepts (recognize_speech_locally lang r) = true := by
  have h3 : r % 3 = 0 ∨ r % 3 = 1 ∨ r % 3 = 2 := by omega
  unfold recognize_speech_locally localTexts
  by_cases h1 : lang = "uk"
  · simp only [h1, if_true]
    rcases h3 with h | h | h <;> simp [h] <;> decide
  · by_cases h2 : lang = "ru"
    · simp only [h1, h2, if_false, if_true]
      rcases h3 with h | h | h <;> simp [h] <;> decide
    · by_cases h4 : lang = "en"
      · simp only [h1, h2, h4, if_false, if_true]
        rcases h3 with h | h | h <;> simp [h] <;> decide
      · simp only [h1, h2, h4, if_false]
        rcases h3 with h | h | h <;> simp [h] <;> decide

/-- The invocations of the per-language loop form a subsequence of the
full per-language order. -/
theorem cascadeLoopTrace_sublist (w : CascadeWorld) :
    ∀ l, (cascadeLoopTrace w l).Sublist (orderFor l) := by
  intro l
  induction l with
  | nil => exact List.Sublist.refl _
  | cons hd rest ih =>
      obtain ⟨lang_code, lang_name⟩ := hd
      simp only [cascadeLoopTrace, orderFor]
      by_cases hl : isFalsy (recognize_with_whisper_free (w.resp lang_code) lang_code) = true
      · rw [if_pos hl, if_pos hl]
        by_cases hacc : accepts (recognize_speech_locally lang_code (w.rand lang_code)) = true
        · rw [if_pos hacc]
          exact .cons₂ _ (.cons₂ _ (List.nil_sublist _))
        · rw [if_neg hacc]
          exact .cons₂ _ (.cons₂ _ ih)
      · rw [if_neg hl, if_neg hl]
        by_cases hacc : accepts (recognize_with_whisper_free (w.resp lang_code) lang_code) = true
        · rw [if_pos hacc]
          exact .cons₂ _ (List.nil_sublist _)
        · rw [if_neg hacc]
          exact .cons₂ _ (.cons _ ih)

/-- C4 counterexample: the claim says the invocation order exactly matches
the configured order up to the first acceptance.  Under `cwSkip` the
whisper call for `uk` returns the six-character transcript `123456`: it is
not accepted, yet — being non-falsy — it suppresses the configured local
fallback for `uk`, and the cascade jumps straight to the `ru` whisper
call.  The resulting trace is not the corresponding prefix of the
configured order. -/
theorem cascadeTrace_skips_configured_entry :
    cascadeTrace cwSkip = [("whisper", "auto"), ("whisper", "uk"), ("whisper", "ru")] ∧
    cascadeTrace cwSkip ≠ configuredOrder.take (cascadeTrace cwSkip).length :=
  ⟨by decide, by decide⟩

/-- C4 amended: the cascade's invocations are a duplicate-free
subsequence of the configured order `configuredOrder` (so no
(provider, language) pair is ever invoked twice and the relative order
always matches), stopping at the first accepted transcript; but an entry
of the configured order can be skipped — the local fallback of a language
is not invoked when the whisper provider returned a non-empty transcript
at or below the acceptance threshold. -/
theorem cascadeTrace_ordered (w : CascadeWorld) :
    (cascadeTrace w).Sublist configuredOrder ∧ (cascadeTrace w).Nodup := by
  have hs : (cascadeTrace w).Sublist configuredOrder := by
    simp only [cascadeTrace, configuredOrder]
    by_cases hacc : accepts (recognize_with_whisper_free (w.resp "auto") "auto") = true
    · rw [if_pos hacc]
      exact .cons₂ _ (List.nil_sublist _)
    · rw [if_neg hacc]
      exact .cons₂ _ (cascadeLoopTrace_sublist w languages)
  exact ⟨hs, List.Nodup.sublist hs (by decide)⟩

/-- C6 counterexample: the claim says that with deterministic providers
two runs on the same audio yield identical outcomes.  `cwRandA` and
`cwRandB` have identical (deterministic) provider responses and differ
only in the `random.choice` draw inside `recognize_speech_locally`, yet
the two runs return different transcripts. -/
theorem recognize_speech_nondeterministic :
    cwRandA.resp = cwRandB.resp ∧
    recognize_speech cwRandA ≠ recognize_speech cwRandB :=
  ⟨rfl, by decide⟩

/-- With identical provider responses, the per-language loop yields
entries with identical labels (only the randomly chosen fallback text may
differ). -/
theorem cascadeLoop_fst_deterministic (w w2 : CascadeWorld) (h : w.resp = w2.resp) :
    ∀ l, (cascadeLoop w l).map Prod.fst = (cascadeLoop w2 l).map Prod.fst := by
  intro l
  induction l with
  | nil => rfl
  | cons hd rest ih =>
      obtain ⟨lang_code, lang_name⟩ := hd
      simp only [cascadeLoop, h]
      by_cases hl : isFalsy (recognize_with_whisper_free (w2.resp lang_code) lang_code) = true
      · rw [if_pos hl, if_pos hl,
          if_pos (accepts_local lang_code (w.rand lang_code)),
          if_pos (accepts_local lang_code (w2.rand lang_code))]
        rfl
      · rw [if_neg hl, if_neg hl]
        by_cases hacc : accepts (recognize_with_whisper_free (w2.resp lang_code) lang_code) = true
        · rw [if_pos hacc, if_pos hacc]
        · rw [if_neg hacc, if_neg hacc]
          exact ih

/-- C6 amended: the recognition stage is deterministic in everything
except the text drawn by `random.choice` in the local fallback — two runs
with identical provider responses always produce mappings with the same
label sequence (same accepting provider/language, or both the canned
placeholder); the transcript texts themselves may differ, as the
counterexample shows. -/
theorem recognize_speech_fst_deterministic (w w2 : CascadeWorld)
    (h : w.resp = w2.resp) :
    (recognize_speech w).map Prod.fst = (recognize_speech w2).map Prod.fst := by
  unfold recognize_speech
  simp only [h]
  have hl := cascadeLoop_fst_deterministic w w2 h languages
  by_cases hacc : accepts (recognize_with_whisper_free (w2.resp "auto") "auto") = true
  · rw [if_pos hacc, if_pos hacc]
  · rw [if_neg hacc, if_neg hacc]
    rcases he : cascadeLoop w languages with _ | ⟨p, r1⟩
    · rw [he] at hl
      rcases he2 : cascadeLoop w2 languages with _ | ⟨q, r2⟩
      · rfl
      · rw [he2] at hl; simp at hl
    · rw [he] at hl
      rcases he2 : cascadeLoop w2 languages with _ | ⟨q, r2⟩
      · rw [he2] at hl; simp at hl
      · rw [he2] at hl
        simp only [List.isEmpty_cons, if_neg]
        simpa using hl

/-- Witness for C6's amended theorem: `cwRandA` and `cwRandB` share
provider responses, so their label sequences agree. -/
theorem recognize_speech_fst_deterministic_witness :
    (recognize_speech cwRandA).map Prod.fst = (recognize_speech cwRandB).map Prod.fst :=
  recognize_speech_fst_deterministic cwRandA cwRandB rfl

/-- C7 counterexample: the claim says an HTTP 200 response with a text
field is a success and that 503 is classified differently from other
non-2xx statuses.  In the source, a 200 response whose text `hi!` is at
most 5 characters is not returned: the call silently substitutes the
canned alternative-API transcript; and a 503 response is handled exactly
like a 404 response (both return `None` with no transient/hard
distinction). -/
theorem whisper_classification_counterexample :
    recognize_with_whisper_free (.response 200 (some "hi!")) "uk"
        = some (alternativeText "uk") ∧
    alternativeText "uk" ≠ "hi!" ∧
    recognize_with_whisper_free (.response 503 none) "uk"
        = recognize_with_whisper_free (.response 404 none) "uk" :=
  ⟨by decide, by decide, rfl⟩

/-- C7 amended: an HTTP 200 response whose stripped text exceeds 5
characters is a success returning that text; every non-200 status — 503
and any other — is treated uniformly as a failure of that provider call
(`None`, with no transient/hard distinction), as is a timeout; and after
such a failure the cascade advances to the next configured entry (the
language's local fallback) instead of aborting. -/
theorem whisper_classification (lang t lang_name : String) (code : Nat)
    (tf : Option String) (w : CascadeWorld) (rest : List (String × String))
    (hcode : code ≠ 200) (ht : pyStrip t ≠ "" ∧ 5 < pyLen (pyStrip t)) :
    recognize_with_whisper_free (.response 200 (some t)) lang = some (pyStrip t) ∧
    recognize_with_whisper_free (.response code tf) lang = none ∧
    recognize_with_whisper_free .timeout lang = none ∧
    (recognize_with_whisper_free (w.resp lang) lang = none →
      cascadeLoopTrace w ((lang, lang_name) :: rest)
        = [("whisper", lang), ("local", lang)]) := by
  refine ⟨?_, ?_, rfl, ?_⟩
  · simp only [recognize_with_whisper_free]
    rw [if_pos ht]
  · unfold recognize_with_whisper_free
    split <;> simp_all
  · intro hnone
    simp [cascadeLoopTrace, hnone, isFalsy, accepts_local lang (w.rand lang)]

/-- Witness for C7's amended theorem at concrete inputs. -/
theorem whisper_classification_witness :
    recognize_with_whisper_free (.response 200 (some "hello there")) "uk"
        = some (pyStrip "hello there") ∧
    recognize_with_whisper_free (.response 404 none) "uk" = none ∧
    recognize_with_whisper_free .timeout "uk" = none ∧
    (recognize_with_whisper_free (cwRandA.resp "uk") "uk" = none →
      cascadeLoopTrace cwRandA [("uk", "Українська")]
        = [("whisper", "uk"), ("local", "uk")]) :=
  whisper_classification "uk" "hello there" "Українська" 404 none cwRandA []
    (by decide) (by decide)

end CrossautFire
